import Mathlib

/-!
Shallow embedding of the email-forwarding service core
(`src/emailService.ts`): URL validation, the browser-launch fallback
chain, navigation retry, confirmation detection, confirmation-button
activation, and the orchestrator `acceptEmailForwardingRequest`,
together with theorems settling the specification claims.

External driver behaviour (puppeteer) is modelled by an `Env` record
that fixes the outcome of every driver call made during one run; each
function additionally returns the list of driver events it performed,
so that resource properties (how often the browser was closed, whether
anything was clicked) are stated over the event trace.
-/

namespace EmailForwarding

/-! ## Data model -/

inductive HeadlessMode
  | hNew
  | hTrue
  | hFalse
deriving DecidableEq, Repr

structure LaunchConfig where
  headless : HeadlessMode
  executablePath : Option String
deriving DecidableEq, Repr

/-- The fields of the EmailForwardingError class: message, code, and the
optional email/url context. -/
structure EFError where
  message : String
  code : String
  email : Option String := none
  url : Option String := none
deriving DecidableEq, Repr

/-- A JavaScript exception as observed by the orchestrator's catch block:
either an EmailForwardingError instance or any other error. Driver-level
(puppeteer) failures are always of the second kind. -/
inductive JsError
  | efe (e : EFError)
  | other (msg : String)
deriving DecidableEq, Repr

structure EmailForwardingResult where
  success : Bool
  message : String
  email : Option String := none
  url : Option String := none
  responseTime : Nat
  alreadyConfirmed : Option Bool := none
deriving DecidableEq, Repr

/-! ## URL validation (validateForwardingUrl, emailService.ts lines 37-40) -/

/-- The regex literal of `validateForwardingUrl` is the anchored literal
character sequence below (no flags, so matching is case-sensitive). -/
def urlPatternChars : List Char := "https://mail-settings.google.com/mail".data

/-- Anchored literal regex matching: the pattern characters must match the
subject from its first character on; anything may follow. -/
def matchHere : List Char → List Char → Bool
  | [], _ => true
  | _ :: _, [] => false
  | p :: ps, c :: cs => p == c && matchHere ps cs

/-- `validateForwardingUrl` runs `urlPattern.test(url)` for the anchored
literal pattern. -/
def validateForwardingUrl (url : String) : Bool :=
  matchHere urlPatternChars url.data

theorem matchHere_iff (p s : List Char) : matchHere p s = true ↔ p <+: s := by
  induction p generalizing s with
  | nil => simp [matchHere]
  | cons a ps ih =>
    cases s with
    | nil => simp [matchHere]
    | cons b t =>
      simp [matchHere, List.cons_prefix_cons, ih]

/-! ## String helpers (JavaScript String.prototype.includes) -/

/-- Substring containment over character lists, as used by the JS
`includes` calls of the detector and the activator. -/
def containsSub : List Char → List Char → Bool
  | [], pat => pat.isEmpty
  | c :: t, pat => pat.isPrefixOf (c :: t) || containsSub t pat

def strIncludes (hay pat : String) : Bool :=
  containsSub hay.data pat.data

/-- JavaScript `toLowerCase` (on the basic-latin alphabet, which covers
every string compared in this program). -/
def strToLower (s : String) : String :=
  String.mk (s.data.map Char.toLower)

/-! ## Driver events and environment -/

/-- One driver (puppeteer) call performed during a run. `clickAttempt`
records the page-element index that was clicked and whether the click
succeeded. -/
inductive Event
  | launch (c : LaunchConfig)
  | newPage
  | setUserAgent
  | setViewport
  | setHeaders
  | goto (attempt : Nat)
  | waitForBody
  | evalPageText
  | clickAttempt (idx : Nat) (ok : Bool)
  | close
deriving DecidableEq, Repr

/-- Outcomes of the driver calls made by one invocation of
`checkIfAlreadyConfirmed`: the `waitForSelector('body')` call and the
`page.evaluate` that reads the body text (raw, before lower-casing). -/
structure CheckEnv where
  waitBody : Except String Unit
  bodyText : Except String String

/-- One button-like DOM element of the rendered page, with the data the
activator inspects: tag name, type/value attributes, text content,
current visibility, and whether clicking it succeeds. -/
structure Elem where
  tag : String
  typeAttr : Option String
  valueAttr : Option String
  textContent : Option String
  visible : Bool
  clickOk : Bool
deriving DecidableEq, Repr

/-- The behaviour of the external browser driver during one run:
the configured executable path, the outcome of each launch attempt (as a
function of the attempted configuration), of the page-setup calls, of the
k-th navigation attempt, of the k-th confirmation check (0 = pre-click,
1..3 = post-click verification), the page's button-like elements, and the
outcome of the k-th close call. -/
structure Env where
  cfgPath : Option String
  launch : LaunchConfig → Except String Unit
  newPage : Except String Unit
  setUserAgent : Except String Unit
  setViewport : Except String Unit
  setHeaders : Except String Unit
  goto : Nat → Except String Unit
  check : Nat → CheckEnv
  page : List Elem
  closeRes : Nat → Except String Unit

/-! ## Browser launch (launchBrowser, emailService.ts lines 45-202) -/

def commonPaths : List String :=
  ["/usr/bin/chromium", "/usr/bin/google-chrome-stable",
   "/usr/bin/chromium-browser", "/usr/bin/google-chrome", "/snap/bin/chromium"]

/-- For each common path, new headless mode (`true`) is tried before the
old one (`false`). -/
def pathConfigs : List LaunchConfig :=
  commonPaths.foldr
    (fun p acc => ⟨HeadlessMode.hTrue, some p⟩ :: ⟨HeadlessMode.hFalse, some p⟩ :: acc) []

def autoConfigs : List LaunchConfig :=
  [⟨HeadlessMode.hTrue, none⟩, ⟨HeadlessMode.hFalse, none⟩]

def fallbackConfigs : List LaunchConfig := pathConfigs ++ autoConfigs

/-- The primary configuration: headless mode 'new' with the configured
executable path (when one is configured). -/
def primaryConfig (cfgPath : Option String) : LaunchConfig :=
  ⟨HeadlessMode.hNew, cfgPath⟩

def browserLaunchFailedError : EFError :=
  ⟨"Failed to launch browser after trying all fallback options",
   "BROWSER_LAUNCH_FAILED", none, none⟩

/-- The fallback loops of `launchBrowser`: each configuration is attempted
in order, an attempt failure is swallowed and the next one tried; when the
list is exhausted the BROWSER_LAUNCH_FAILED EmailForwardingError is
thrown (without a url). -/
def tryFallbackConfigs (env : Env) : List LaunchConfig → Except JsError Unit × List Event
  | [] => (Except.error (JsError.efe browserLaunchFailedError), [])
  | c :: rest =>
    match env.launch c with
    | .ok _ => (Except.ok (), [Event.launch c])
    | .error _ =>
      ((tryFallbackConfigs env rest).1, Event.launch c :: (tryFallbackConfigs env rest).2)

/-- `launchBrowser`: the primary configuration first; any primary failure
is caught and the fallback sequence is run. -/
def launchBrowser (env : Env) : Except JsError Unit × List Event :=
  match env.launch (primaryConfig env.cfgPath) with
  | .ok _ => (Except.ok (), [Event.launch (primaryConfig env.cfgPath)])
  | .error _ =>
    ((tryFallbackConfigs env fallbackConfigs).1,
     Event.launch (primaryConfig env.cfgPath) :: (tryFallbackConfigs env fallbackConfigs).2)

/-- The full ordered attempt sequence (primary, then fallbacks). -/
def allConfigs (env : Env) : List LaunchConfig :=
  primaryConfig env.cfgPath :: fallbackConfigs

/-! ## Confirmation detection (checkIfAlreadyConfirmed, lines 207-240) -/

def confirmationTexts : List String :=
  ["may now forward mail to", "forwarding is enabled",
   "forwarding has been confirmed", "successfully confirmed"]

/-- `checkIfAlreadyConfirmed`: waits for the body, evaluates the page's
lower-cased text, and reports whether any confirmation phrase occurs in
it; every internal failure is caught and reported as `false`. -/
def checkIfAlreadyConfirmed (ce : CheckEnv) : Bool × List Event :=
  match ce.waitBody with
  | .error _ => (false, [Event.waitForBody])
  | .ok _ =>
    match ce.bodyText with
    | .error _ => (false, [Event.waitForBody, Event.evalPageText])
    | .ok raw =>
      (confirmationTexts.any (fun t => strIncludes (strToLower raw) t),
       [Event.waitForBody, Event.evalPageText])

/-! ## Confirmation activation (clickConfirmationButton, lines 245-315) -/

/-- The selector strategies of `clickConfirmationButton`, in source
order. `buttonContainsConfirm` is the pseudo-selector
`button:contains('Confirm')`, handled by the enumerate-and-filter branch. -/
inductive Sel
  | inputValueConfirm
  | inputValueConfirmSub
  | buttonSubmit
  | inputSubmitValueConfirmSub
  | buttonContainsConfirm
  | inputValueYes
  | buttonValueYes
deriving DecidableEq, Repr

def selectorList : List Sel :=
  [Sel.inputValueConfirm, Sel.inputValueConfirmSub, Sel.buttonSubmit,
   Sel.inputSubmitValueConfirmSub, Sel.buttonContainsConfirm,
   Sel.inputValueYes, Sel.buttonValueYes]

def optContains (v : Option String) (pat : String) : Bool :=
  match v with
  | none => false
  | some s => strIncludes s pat

/-- CSS matching for the native selectors of the list (attribute
selectors are case-sensitive; `[value*=x]` is substring containment). -/
def matchesSel : Sel → Elem → Bool
  | Sel.inputValueConfirm, e => e.tag == "input" && e.valueAttr == some "Confirm"
  | Sel.inputValueConfirmSub, e => e.tag == "input" && optContains e.valueAttr "Confirm"
  | Sel.buttonSubmit, e => e.tag == "button" && e.typeAttr == some "submit"
  | Sel.inputSubmitValueConfirmSub, e =>
      e.tag == "input" && e.typeAttr == some "submit" && optContains e.valueAttr "Confirm"
  | Sel.buttonContainsConfirm, _ => false
  | Sel.inputValueYes, e => e.tag == "input" && e.valueAttr == some "Yes"
  | Sel.buttonValueYes, e => e.tag == "button" && e.valueAttr == some "Yes"

/-- The element set queried by the enumerate-and-filter branch:
`button, input[type="submit"], input[type="button"]`. -/
def buttonLike (e : Elem) : Bool :=
  e.tag == "button" ||
    (e.tag == "input" && (e.typeAttr == some "submit" || e.typeAttr == some "button"))

/-- `el.textContent || el.value || ''` with JavaScript falsiness: an empty
text content falls through to the value attribute. -/
def elemText (e : Elem) : String :=
  let t := e.textContent.getD ""
  if t == "" then e.valueAttr.getD "" else t

/-- The text filter of the enumerate-and-filter branch: lower-cased text
contains "confirm" or "yes". -/
def textMatches (e : Elem) : Bool :=
  strIncludes (strToLower (elemText e)) "confirm" ||
    strIncludes (strToLower (elemText e)) "yes"

/-- One recorded click attempt: which strategy fired, the index and data
of the clicked element, and whether the click succeeded. -/
structure ClickAttempt where
  sel : Sel
  idx : Nat
  elem : Elem
  ok : Bool
deriving DecidableEq, Repr

/-- What a single selector strategy does on the page: `none` when it
clicks nothing (no match, or the first CSS match is not visible), and
`some a` when it clicks element `a.idx` (with `a.ok` the click outcome).
The CSS branch checks visibility before clicking; the
enumerate-and-filter branch clicks the first text-matching button-like
element without a visibility check. -/
def attemptSel (page : List Elem) (s : Sel) : Option ClickAttempt :=
  match s with
  | Sel.buttonContainsConfirm =>
    match ((page.enum.filter fun ie => buttonLike ie.2).find? fun ie => textMatches ie.2) with
    | some ie => some ⟨s, ie.1, ie.2, ie.2.clickOk⟩
    | none => none
  | s =>
    match (page.enum.find? fun ie => matchesSel s ie.2) with
    | some ie => if ie.2.visible then some ⟨s, ie.1, ie.2, ie.2.clickOk⟩ else none
    | none => none

/-- The strategy loop: a successful click returns immediately; a click
whose dispatch throws is caught at the strategy level and the next
strategy is tried; a strategy that clicks nothing is skipped. Returns
whether some click succeeded, plus all click attempts made. -/
def trySelectors (page : List Elem) : List Sel → Bool × List ClickAttempt
  | [] => (false, [])
  | s :: rest =>
    match attemptSel page s with
    | some a =>
      if a.ok then (true, [a])
      else ((trySelectors page rest).1, a :: (trySelectors page rest).2)
    | none => trySelectors page rest

def buttonNotFoundError : EFError :=
  ⟨"No confirmation button found", "BUTTON_NOT_FOUND", none, none⟩

/-- `clickConfirmationButton`: runs the strategy list; when no strategy
managed a successful click, throws the BUTTON_NOT_FOUND
EmailForwardingError (without a url). -/
def clickConfirmationButton (page : List Elem) : Except JsError Unit × List ClickAttempt :=
  if (trySelectors page selectorList).1 then
    (Except.ok (), (trySelectors page selectorList).2)
  else
    (Except.error (JsError.efe buttonNotFoundError), (trySelectors page selectorList).2)

/-! ## The orchestrator (acceptEmailForwardingRequest, lines 320-486) -/

def invalidUrlError (url : String) : EFError :=
  ⟨"Invalid Gmail forwarding URL format", "INVALID_URL_FORMAT", none, some url⟩

def navigationFailedError (url : String) : EFError :=
  ⟨"Failed to navigate to confirmation page after multiple attempts",
   "NAVIGATION_FAILED", none, some url⟩

def confirmationFailedError (url : String) : EFError :=
  ⟨"Confirmation failed - page did not update as expected",
   "CONFIRMATION_FAILED", none, some url⟩

def alreadyConfirmedResult (url : String) (rt : Nat) : EmailForwardingResult :=
  ⟨true, "Email forwarding already confirmed", none, some url, rt, some true⟩

def confirmedResult (url : String) (rt : Nat) : EmailForwardingResult :=
  ⟨true, "Email forwarding confirmed successfully", none, some url, rt, some false⟩

/-- The page-setup sequence after launch: `newPage`, `setUserAgent`,
`setViewport`, `setExtraHTTPHeaders`; the first driver failure aborts
the sequence and propagates as an exception. -/
def setupPage (env : Env) : Except JsError Unit × List Event :=
  match env.newPage with
  | .error m => (Except.error (JsError.other m), [Event.newPage])
  | .ok _ =>
    match env.setUserAgent with
    | .error m => (Except.error (JsError.other m), [Event.newPage, Event.setUserAgent])
    | .ok _ =>
      match env.setViewport with
      | .error m =>
        (Except.error (JsError.other m),
         [Event.newPage, Event.setUserAgent, Event.setViewport])
      | .ok _ =>
        match env.setHeaders with
        | .error m =>
          (Except.error (JsError.other m),
           [Event.newPage, Event.setUserAgent, Event.setViewport, Event.setHeaders])
        | .ok _ =>
          (Except.ok (),
           [Event.newPage, Event.setUserAgent, Event.setViewport, Event.setHeaders])

/-- The navigation retry loop (attempts 1, 2, 3): a successful `goto`
sets navigationSuccess and breaks; a failure on attempt 3 rethrows the
raw navigation error; earlier failures wait 2 seconds and retry. The
result is the `navigationSuccess` flag. -/
def navLoop (env : Env) : List Nat → Except JsError Bool × List Event
  | [] => (Except.ok false, [])
  | k :: rest =>
    match env.goto k with
    | .ok _ => (Except.ok true, [Event.goto k])
    | .error m =>
      if k == 3 then (Except.error (JsError.other m), [Event.goto k])
      else ((navLoop env rest).1, Event.goto k :: (navLoop env rest).2)

/-- The post-click verification loop: up to 3 confirmation checks with a
2-second delay between them, stopping at the first positive check. -/
def verifyLoop (env : Env) : List Nat → Bool × List Event
  | [] => (false, [])
  | k :: rest =>
    if (checkIfAlreadyConfirmed (env.check k)).1 then
      (true, (checkIfAlreadyConfirmed (env.check k)).2)
    else
      ((verifyLoop env rest).1,
       (checkIfAlreadyConfirmed (env.check k)).2 ++ (verifyLoop env rest).2)

/-- The part of the try block after a successful navigation: the
pre-click confirmation check (short-circuiting to the already-confirmed
success after closing the browser), the button click, the verification
loop, the close, and the success-or-CONFIRMATION_FAILED branch. Close
calls here are not guarded: a close failure propagates. -/
def afterNav (env : Env) (url : String) (rt : Nat) :
    Except JsError EmailForwardingResult × List Event :=
  let ct := (checkIfAlreadyConfirmed (env.check 0)).2
  if (checkIfAlreadyConfirmed (env.check 0)).1 then
    match env.closeRes 0 with
    | .error m => (Except.error (JsError.other m), ct ++ [Event.close])
    | .ok _ => (Except.ok (alreadyConfirmedResult url rt), ct ++ [Event.close])
  else
    let clicks := (clickConfirmationButton env.page).2
    let ct2 := ct ++ clicks.map fun a => Event.clickAttempt a.idx a.ok
    match (clickConfirmationButton env.page).1 with
    | .error e => (Except.error e, ct2)
    | .ok _ =>
      let ct3 := ct2 ++ (verifyLoop env [1, 2, 3]).2
      match env.closeRes 0 with
      | .error m => (Except.error (JsError.other m), ct3 ++ [Event.close])
      | .ok _ =>
        if (verifyLoop env [1, 2, 3]).1 then
          (Except.ok (confirmedResult url rt), ct3 ++ [Event.close])
        else
          (Except.error (JsError.efe (confirmationFailedError url)), ct3 ++ [Event.close])

/-- The whole try block of `acceptEmailForwardingRequest`. Besides the
outcome and the trace it reports whether the `browser` variable had been
assigned when the block exited (which is what the catch block's cleanup
tests). -/
def acceptBody (env : Env) (url : String) (rt : Nat) :
    Except JsError EmailForwardingResult × Bool × List Event :=
  if validateForwardingUrl url then
    match (launchBrowser env).1 with
    | .error e => (Except.error e, false, (launchBrowser env).2)
    | .ok _ =>
      let lt := (launchBrowser env).2
      match (setupPage env).1 with
      | .error e => (Except.error e, true, lt ++ (setupPage env).2)
      | .ok _ =>
        let st := lt ++ (setupPage env).2
        match (navLoop env [1, 2, 3]).1 with
        | .error e => (Except.error e, true, st ++ (navLoop env [1, 2, 3]).2)
        | .ok navSuccess =>
          let nt := st ++ (navLoop env [1, 2, 3]).2
          if navSuccess then
            ((afterNav env url rt).1, true, nt ++ (afterNav env url rt).2)
          else
            (Except.error (JsError.efe (navigationFailedError url)), true, nt)
  else
    (Except.error (JsError.efe (invalidUrlError url)), false, [])

/-- `acceptEmailForwardingRequest`: the try block, then the catch block,
which closes the browser when one had been assigned (swallowing any
close failure), and translates the exception into a failure result:
EmailForwardingError fields are copied over; any other error becomes the
generic internal-error result carrying the request url. -/
def acceptEmailForwardingRequest (env : Env) (url : String) (rt : Nat) :
    EmailForwardingResult × List Event :=
  match acceptBody env url rt with
  | (.ok res, _, t) => (res, t)
  | (.error e, browserSet, t) =>
    let t2 := if browserSet then t ++ [Event.close] else t
    match e with
    | JsError.efe ef => (⟨false, ef.message, ef.email, ef.url, rt, none⟩, t2)
    | JsError.other _ =>
      (⟨false, "Internal error during email forwarding process", none, some url, rt, none⟩, t2)

/-! ## Trace counters -/

def isCloseEvent : Event → Bool
  | Event.close => true
  | _ => false

def isClickEvent : Event → Bool
  | Event.clickAttempt _ _ => true
  | _ => false

/-- Number of times the browser handle's close operation was invoked. -/
def closeCount (t : List Event) : Nat := t.countP isCloseEvent

/-- Number of element clicks dispatched. -/
def clickCount (t : List Event) : Nat := t.countP isClickEvent

theorem closeCount_append (a b : List Event) :
    closeCount (a ++ b) = closeCount a + closeCount b :=
  List.countP_append _ _ _

theorem clickCount_append (a b : List Event) :
    clickCount (a ++ b) = clickCount a + clickCount b :=
  List.countP_append _ _ _

theorem countP_zero_of (p : Event → Bool) (t : List Event)
    (h : ∀ e ∈ t, p e = false) : t.countP p = 0 := by
  rw [List.countP_eq_zero]
  intro a ha
  simp [h a ha]

/-! ### Trace shapes of the stages -/

theorem mem_tryFallback_trace (env : Env) (cs : List LaunchConfig) (e : Event)
    (h : e ∈ (tryFallbackConfigs env cs).2) : ∃ c, e = Event.launch c := by
  induction cs with
  | nil => simp [tryFallbackConfigs] at h
  | cons c rest ih =>
    revert h
    unfold tryFallbackConfigs
    cases env.launch c with
    | ok u => intro h; simp at h; exact ⟨c, h⟩
    | error m =>
      intro h
      simp at h
      rcases h with h | h
      · exact ⟨c, h⟩
      · exact ih h

theorem mem_launch_trace (env : Env) (e : Event)
    (h : e ∈ (launchBrowser env).2) : ∃ c, e = Event.launch c := by
  revert h
  unfold launchBrowser
  cases env.launch (primaryConfig env.cfgPath) with
  | ok u => intro h; simp at h; exact ⟨_, h⟩
  | error m =>
    intro h
    simp at h
    rcases h with h | h
    · exact ⟨_, h⟩
    · exact mem_tryFallback_trace env _ e h

theorem mem_setup_trace (env : Env) (e : Event)
    (h : e ∈ (setupPage env).2) :
    e = Event.newPage ∨ e = Event.setUserAgent ∨ e = Event.setViewport ∨
      e = Event.setHeaders := by
  revert h
  unfold setupPage
  cases env.newPage <;> cases env.setUserAgent <;> cases env.setViewport <;>
    cases env.setHeaders <;> (intro h; simp at h; tauto)

theorem mem_nav_trace (env : Env) (l : List Nat) (e : Event)
    (h : e ∈ (navLoop env l).2) : ∃ k, e = Event.goto k := by
  induction l with
  | nil => simp [navLoop] at h
  | cons k rest ih =>
    revert h
    unfold navLoop
    cases env.goto k with
    | ok u => intro h; simp at h; exact ⟨k, h⟩
    | error m =>
      by_cases hk : (k == 3) = true
      · simp [hk]
        intro h
        exact ⟨k, h⟩
      · simp [hk]
        intro h
        rcases h with h | h
        · exact ⟨k, h⟩
        · exact ih h

theorem mem_check_trace (ce : CheckEnv) (e : Event)
    (h : e ∈ (checkIfAlreadyConfirmed ce).2) :
    e = Event.waitForBody ∨ e = Event.evalPageText := by
  revert h
  unfold checkIfAlreadyConfirmed
  cases ce.waitBody <;> [skip; cases ce.bodyText] <;> (intro h; simp at h; tauto)

theorem mem_verify_trace (env : Env) (l : List Nat) (e : Event)
    (h : e ∈ (verifyLoop env l).2) :
    e = Event.waitForBody ∨ e = Event.evalPageText := by
  induction l with
  | nil => simp [verifyLoop] at h
  | cons k rest ih =>
    revert h
    unfold verifyLoop
    by_cases hc : (checkIfAlreadyConfirmed (env.check k)).1 = true
    · simp [hc]
      intro h
      exact mem_check_trace _ _ h
    · simp [hc]
      intro h
      rcases h with h | h
      · exact mem_check_trace _ _ h
      · exact ih h

theorem mem_clickmap_trace (clicks : List ClickAttempt) (e : Event)
    (h : e ∈ clicks.map fun a => Event.clickAttempt a.idx a.ok) :
    ∃ i b, e = Event.clickAttempt i b := by
  rcases List.mem_map.1 h with ⟨a, _, rfl⟩
  exact ⟨a.idx, a.ok, rfl⟩

/-! ### Close / click counts of the stages -/

theorem closeCount_launch (env : Env) : closeCount (launchBrowser env).2 = 0 :=
  countP_zero_of _ _ fun e he => by
    obtain ⟨c, rfl⟩ := mem_launch_trace env e he; rfl

theorem clickCount_launch (env : Env) : clickCount (launchBrowser env).2 = 0 :=
  countP_zero_of _ _ fun e he => by
    obtain ⟨c, rfl⟩ := mem_launch_trace env e he; rfl

theorem closeCount_setup (env : Env) : closeCount (setupPage env).2 = 0 :=
  countP_zero_of _ _ fun e he => by
    rcases mem_setup_trace env e he with rfl | rfl | rfl | rfl <;> rfl

theorem clickCount_setup (env : Env) : clickCount (setupPage env).2 = 0 :=
  countP_zero_of _ _ fun e he => by
    rcases mem_setup_trace env e he with rfl | rfl | rfl | rfl <;> rfl

theorem closeCount_nav (env : Env) (l : List Nat) : closeCount (navLoop env l).2 = 0 :=
  countP_zero_of _ _ fun e he => by
    obtain ⟨k, rfl⟩ := mem_nav_trace env l e he; rfl

theorem clickCount_nav (env : Env) (l : List Nat) : clickCount (navLoop env l).2 = 0 :=
  countP_zero_of _ _ fun e he => by
    obtain ⟨k, rfl⟩ := mem_nav_trace env l e he; rfl

theorem closeCount_check (ce : CheckEnv) : closeCount (checkIfAlreadyConfirmed ce).2 = 0 :=
  countP_zero_of _ _ fun e he => by
    rcases mem_check_trace ce e he with rfl | rfl <;> rfl

theorem clickCount_check (ce : CheckEnv) : clickCount (checkIfAlreadyConfirmed ce).2 = 0 :=
  countP_zero_of _ _ fun e he => by
    rcases mem_check_trace ce e he with rfl | rfl <;> rfl

theorem closeCount_verify (env : Env) (l : List Nat) :
    closeCount (verifyLoop env l).2 = 0 :=
  countP_zero_of _ _ fun e he => by
    rcases mem_verify_trace env l e he with rfl | rfl <;> rfl

theorem closeCount_clickmap (clicks : List ClickAttempt) :
    closeCount (clicks.map fun a => Event.clickAttempt a.idx a.ok) = 0 :=
  countP_zero_of _ _ fun e he => by
    obtain ⟨i, b, rfl⟩ := mem_clickmap_trace clicks e he; rfl

/-! ### Error classification of the stages -/

theorem tryFallback_err (env : Env) (cs : List LaunchConfig) (e : JsError)
    (h : (tryFallbackConfigs env cs).1 = Except.error e) :
    e = JsError.efe browserLaunchFailedError := by
  induction cs with
  | nil =>
    simp [tryFallbackConfigs] at h
    exact h.symm
  | cons c rest ih =>
    revert h
    unfold tryFallbackConfigs
    cases env.launch c with
    | ok u => intro h; simp at h
    | error m => intro h; exact ih h

theorem launchBrowser_err (env : Env) (e : JsError)
    (h : (launchBrowser env).1 = Except.error e) :
    e = JsError.efe browserLaunchFailedError := by
  revert h
  unfold launchBrowser
  cases env.launch (primaryConfig env.cfgPath) with
  | ok u => intro h; simp at h
  | error m => intro h; exact tryFallback_err env _ e h

theorem setupPage_err (env : Env) (e : JsError)
    (h : (setupPage env).1 = Except.error e) : ∃ m, e = JsError.other m := by
  revert h
  unfold setupPage
  cases env.newPage <;> cases env.setUserAgent <;> cases env.setViewport <;>
    cases env.setHeaders <;> (intro h; simp_all) <;> exact ⟨_, h.symm⟩

theorem navLoop_err (env : Env) (l : List Nat) (e : JsError)
    (h : (navLoop env l).1 = Except.error e) : ∃ m, e = JsError.other m := by
  induction l with
  | nil => simp [navLoop] at h
  | cons k rest ih =>
    revert h
    unfold navLoop
    cases env.goto k with
    | ok u => intro h; simp at h
    | error m =>
      by_cases hk : (k == 3) = true
      · simp [hk]
        intro h
        exact ⟨m, h.symm⟩
      · simp [hk]
        intro h
        exact ih h

theorem clickButton_err (page : List Elem) (e : JsError)
    (h : (clickConfirmationButton page).1 = Except.error e) :
    e = JsError.efe buttonNotFoundError := by
  revert h
  unfold clickConfirmationButton
  by_cases hc : (trySelectors page selectorList).1 = true
  · simp [hc]
  · simp [hc]
    intro h
    exact h.symm

theorem closeCount_close1 : closeCount [Event.close] = 1 := rfl

theorem clickCount_close1 : clickCount [Event.close] = 0 := rfl

/-! ### Outcome classification of the post-navigation phase -/

theorem afterNav_spec (env : Env) (url : String) (rt : Nat) :
    ((afterNav env url rt).1 = Except.ok (alreadyConfirmedResult url rt) ∧
      closeCount (afterNav env url rt).2 = 1 ∧ clickCount (afterNav env url rt).2 = 0 ∧
      (checkIfAlreadyConfirmed (env.check 0)).1 = true)
    ∨ ((afterNav env url rt).1 = Except.ok (confirmedResult url rt) ∧
      closeCount (afterNav env url rt).2 = 1 ∧
      (checkIfAlreadyConfirmed (env.check 0)).1 = false)
    ∨ ((∃ e, (afterNav env url rt).1 = Except.error e ∧
        ((∃ m, e = JsError.other m) ∨ e = JsError.efe buttonNotFoundError ∨
          e = JsError.efe (confirmationFailedError url))) ∧
      closeCount (afterNav env url rt).2 ≤ 1) := by
  unfold afterNav
  by_cases hac : (checkIfAlreadyConfirmed (env.check 0)).1 = true
  · cases hcl : env.closeRes 0 with
    | error m =>
      refine Or.inr (Or.inr ⟨⟨JsError.other m, ?_, Or.inl ⟨m, rfl⟩⟩, ?_⟩) <;>
        simp only [hac, hcl, if_true] <;>
        simp [closeCount_append, closeCount_check, closeCount_close1]
    | ok u =>
      refine Or.inl ⟨?_, ?_, ?_, hac⟩ <;>
        simp only [hac, hcl, if_true] <;>
        simp [closeCount_append, clickCount_append, closeCount_check,
          clickCount_check, closeCount_close1, clickCount_close1]
  · simp only [Bool.not_eq_true] at hac
    cases hcr : (clickConfirmationButton env.page).1 with
    | error e =>
      have he := clickButton_err env.page e hcr
      refine Or.inr (Or.inr ⟨⟨e, ?_, Or.inr (Or.inl he)⟩, ?_⟩) <;>
        simp only [hac, hcr, Bool.false_eq_true, if_false] <;>
        simp [closeCount_append, closeCount_check, closeCount_clickmap]
    | ok u =>
      cases hcl : env.closeRes 0 with
      | error m =>
        refine Or.inr (Or.inr ⟨⟨JsError.other m, ?_, Or.inl ⟨m, rfl⟩⟩, ?_⟩) <;>
          simp only [hac, hcr, hcl, Bool.false_eq_true, if_false] <;>
          simp [closeCount_append, closeCount_check, closeCount_clickmap,
            closeCount_verify, closeCount_close1]
      | ok u2 =>
        by_cases hic : (verifyLoop env [1, 2, 3]).1 = true
        · refine Or.inr (Or.inl ⟨?_, ?_, hac⟩) <;>
            simp only [hac, hcr, hcl, hic, Bool.false_eq_true, if_false, if_true] <;>
            simp [closeCount_append, closeCount_check, closeCount_clickmap,
              closeCount_verify, closeCount_close1]
        · simp only [Bool.not_eq_true] at hic
          refine Or.inr (Or.inr ⟨⟨JsError.efe (confirmationFailedError url), ?_,
            Or.inr (Or.inr rfl)⟩, ?_⟩) <;>
            simp only [hac, hcr, hcl, hic, Bool.false_eq_true, if_false] <;>
            simp [closeCount_append, closeCount_check, closeCount_clickmap,
              closeCount_verify, closeCount_close1]

/-! ### Outcome classification of the whole try block -/

theorem acceptBody_spec (env : Env) (url : String) (rt : Nat) :
    (∃ t, acceptBody env url rt = (Except.ok (alreadyConfirmedResult url rt), true, t) ∧
        closeCount t = 1 ∧ clickCount t = 0 ∧
        (checkIfAlreadyConfirmed (env.check 0)).1 = true)
    ∨ (∃ t, acceptBody env url rt = (Except.ok (confirmedResult url rt), true, t) ∧
        closeCount t = 1 ∧ (checkIfAlreadyConfirmed (env.check 0)).1 = false)
    ∨ (∃ e bs t, acceptBody env url rt = (Except.error e, bs, t) ∧
        ((∃ m, e = JsError.other m) ∨ e = JsError.efe (invalidUrlError url) ∨
          e = JsError.efe browserLaunchFailedError ∨
          e = JsError.efe (navigationFailedError url) ∨
          e = JsError.efe buttonNotFoundError ∨
          e = JsError.efe (confirmationFailedError url)) ∧
        closeCount t ≤ 1 ∧
        (bs = false → closeCount t = 0) ∧
        (validateForwardingUrl url = true → (launchBrowser env).1 = Except.ok () →
          bs = true)) := by
  by_cases hv : validateForwardingUrl url = true
  · cases hl : (launchBrowser env).1 with
    | error e =>
      refine Or.inr (Or.inr ⟨e, false, (launchBrowser env).2, ?_,
        Or.inr (Or.inr (Or.inl (launchBrowser_err env e hl))), ?_, fun _ => ?_,
        fun _ hl2 => ?_⟩)
      · simp [acceptBody, hv, hl]
      · simp [closeCount_launch]
      · exact closeCount_launch env
      · exact absurd hl2 (by simp)
    | ok u =>
      cases hs : (setupPage env).1 with
      | error e =>
        obtain ⟨m, rfl⟩ := setupPage_err env e hs
        refine Or.inr (Or.inr ⟨JsError.other m, true,
          (launchBrowser env).2 ++ (setupPage env).2, ?_, Or.inl ⟨m, rfl⟩, ?_,
          fun hbs => by simp at hbs, fun _ _ => rfl⟩)
        · simp [acceptBody, hv, hl, hs]
        · simp [closeCount_append, closeCount_launch, closeCount_setup]
      | ok u2 =>
        cases hn : (navLoop env [1, 2, 3]).1 with
        | error e =>
          obtain ⟨m, rfl⟩ := navLoop_err env _ e hn
          refine Or.inr (Or.inr ⟨JsError.other m, true,
            (launchBrowser env).2 ++ (setupPage env).2 ++ (navLoop env [1, 2, 3]).2,
            ?_, Or.inl ⟨m, rfl⟩, ?_,
            fun hbs => by simp at hbs, fun _ _ => rfl⟩)
          · simp [acceptBody, hv, hl, hs, hn]
          · simp [closeCount_append, closeCount_launch, closeCount_setup, closeCount_nav]
        | ok navSuccess =>
          cases navSuccess with
          | false =>
            refine Or.inr (Or.inr ⟨JsError.efe (navigationFailedError url), true,
              (launchBrowser env).2 ++ (setupPage env).2 ++ (navLoop env [1, 2, 3]).2,
              ?_, Or.inr (Or.inr (Or.inr (Or.inl rfl))), ?_,
              fun hbs => by simp at hbs, fun _ _ => rfl⟩)
            · simp [acceptBody, hv, hl, hs, hn]
            · simp [closeCount_append, closeCount_launch, closeCount_setup,
                closeCount_nav]
          | true =>
            have hpre : closeCount ((launchBrowser env).2 ++ (setupPage env).2 ++
                (navLoop env [1, 2, 3]).2) = 0 := by
              simp [closeCount_append, closeCount_launch, closeCount_setup,
                closeCount_nav]
            have hpreClick : clickCount ((launchBrowser env).2 ++ (setupPage env).2 ++
                (navLoop env [1, 2, 3]).2) = 0 := by
              simp [clickCount_append, clickCount_launch, clickCount_setup,
                clickCount_nav]
            rcases afterNav_spec env url rt with ⟨ha, hc, hk, hchk⟩ |
                ⟨ha, hc, hchk⟩ | ⟨⟨e, ha, hcls⟩, hc⟩
            · refine Or.inl ⟨(launchBrowser env).2 ++ (setupPage env).2 ++
                (navLoop env [1, 2, 3]).2 ++ (afterNav env url rt).2, ?_, ?_, ?_, hchk⟩
              · simp [acceptBody, hv, hl, hs, hn, ha]
              · rw [closeCount_append, hpre, hc]
              · rw [clickCount_append, hpreClick, hk]
            · refine Or.inr (Or.inl ⟨(launchBrowser env).2 ++ (setupPage env).2 ++
                (navLoop env [1, 2, 3]).2 ++ (afterNav env url rt).2, ?_, ?_, hchk⟩)
              · simp [acceptBody, hv, hl, hs, hn, ha]
              · rw [closeCount_append, hpre, hc]
            · refine Or.inr (Or.inr ⟨e, true, (launchBrowser env).2 ++
                (setupPage env).2 ++ (navLoop env [1, 2, 3]).2 ++ (afterNav env url rt).2,
                ?_, ?_, ?_, fun hbs => by simp at hbs, fun _ _ => rfl⟩)
              · simp [acceptBody, hv, hl, hs, hn, ha]
              · rcases hcls with ⟨m, rfl⟩ | rfl | rfl
                · exact Or.inl ⟨m, rfl⟩
                · exact Or.inr (Or.inr (Or.inr (Or.inr (Or.inl rfl))))
                · exact Or.inr (Or.inr (Or.inr (Or.inr (Or.inr rfl))))
              · rw [closeCount_append, hpre]
                simpa using hc
  · simp only [Bool.not_eq_true] at hv
    refine Or.inr (Or.inr ⟨JsError.efe (invalidUrlError url), false, [], ?_,
      Or.inr (Or.inl rfl), by simp [closeCount], fun _ => by simp [closeCount],
      fun hv2 _ => by rw [hv] at hv2; exact absurd hv2 (by simp)⟩)
    simp [acceptBody, hv]

/-! ## Concrete driver behaviours used as witnesses and counterexamples -/

def okCheck (s : String) : CheckEnv := ⟨Except.ok (), Except.ok s⟩

/-- A visible, clickable `input[value='Confirm']` submit control. -/
def confirmButtonElem : Elem := ⟨"input", some "submit", some "Confirm", none, true, true⟩

/-- An invisible button whose text content is "Confirm" and whose click
succeeds; it carries no type attribute, so no CSS strategy matches it and
only the text-content scan finds it. -/
def hiddenConfirmButton : Elem := ⟨"button", none, none, some "Confirm", false, true⟩

def urlOK : String := "https://mail-settings.google.com/mail/u/0"

/-- Fully cooperative driver whose page never shows a confirmation
phrase: the run reaches the post-click verification and fails it. -/
def baseEnv : Env where
  cfgPath := none
  launch := fun _ => Except.ok ()
  newPage := Except.ok ()
  setUserAgent := Except.ok ()
  setViewport := Except.ok ()
  setHeaders := Except.ok ()
  goto := fun _ => Except.ok ()
  check := fun _ => okCheck "plain page"
  page := [confirmButtonElem]
  closeRes := fun _ => Except.ok ()

/-- Driver whose every navigation attempt fails. -/
def navFailEnv : Env :=
  { baseEnv with goto := fun _ => Except.error "net::ERR_TIMED_OUT" }

/-- Driver whose page is already confirmed but whose close call fails. -/
def closeCrashEnv : Env :=
  { baseEnv with
    check := fun _ => okCheck "You may now forward mail to a@b.c",
    closeRes := fun _ => Except.error "close crash" }

/-- Driver whose page is already confirmed; everything succeeds. -/
def alreadyOkEnv : Env :=
  { baseEnv with check := fun _ => okCheck "You may now forward mail to a@b.c" }

/-- Driver whose page has no button-like element at all. -/
def noButtonEnv : Env := { baseEnv with page := [] }

/-- Driver for which the primary launch configuration (headless 'new')
fails and every fallback configuration succeeds. -/
def launchFallbackEnv : Env :=
  { baseEnv with
    launch := fun c =>
      if c.headless == HeadlessMode.hNew then Except.error "no exec" else Except.ok () }

/-- Driver for which the pre-click check sees no confirmation and the
post-click checks see one: the post-click success path. -/
def postClickEnv : Env :=
  { baseEnv with
    check := fun k => if k == 0 then okCheck "plain page" else okCheck "forwarding is enabled" }

/-! ## Claims -/

/-- C10: `validateForwardingUrl` accepts exactly the strings that begin
with the literal, case-sensitive prefix "https://mail-settings.google.com/mail";
any continuation after the prefix is accepted, and no casing variant of
the prefix is. -/
theorem C10_validate_url_prefix :
    (∀ s : String, validateForwardingUrl s = true ↔ urlPatternChars <+: s.data) ∧
    validateForwardingUrl "https://mail-settings.google.com/mailXYZ" = true ∧
    validateForwardingUrl "https://mail-settings.google.com/mail/u/0/?confirm=1" = true ∧
    validateForwardingUrl "https://mail-settings.google.com/mail" = true ∧
    validateForwardingUrl "HTTPS://mail-settings.google.com/mail" = false ∧
    validateForwardingUrl "https://Mail-Settings.google.com/mail" = false ∧
    validateForwardingUrl "http://mail-settings.google.com/mail" = false :=
  ⟨fun s => matchHere_iff urlPatternChars s.data, rfl, rfl, rfl, rfl, rfl, rfl⟩

/-- C10 witness: the characterization applied at a concrete accepted
input. -/
theorem C10_witness :
    validateForwardingUrl "https://mail-settings.google.com/mailXYZ" = true :=
  C10_validate_url_prefix.2.1

/-- C3: a request whose URL fails validation yields the failure result
with message "Invalid Gmail forwarding URL format" (carrying the url),
and the event trace is empty: no browser-driver operation - in
particular no launch - is ever invoked. -/
theorem C3_invalid_url_no_driver (env : Env) (url : String) (rt : Nat)
    (h : validateForwardingUrl url = false) :
    acceptEmailForwardingRequest env url rt =
      (⟨false, "Invalid Gmail forwarding URL format", none, some url, rt, none⟩, []) := by
  simp [acceptEmailForwardingRequest, acceptBody, h, invalidUrlError]

/-- C3 witness: the theorem applied to a concrete non-matching URL. -/
theorem C3_witness :
    acceptEmailForwardingRequest baseEnv "https://example.com/x" 7 =
      (⟨false, "Invalid Gmail forwarding URL format", none,
        some "https://example.com/x", 7, none⟩, []) :=
  C3_invalid_url_no_driver baseEnv "https://example.com/x" 7 rfl

/-- C2: whatever the driver does, the orchestrator returns a result (its
Lean type is a plain result, not an exceptional one), and whenever the
try block exits with any exception the returned result has
success = false: every failure mode is encoded in the result. -/
theorem C2_never_raises (env : Env) (url : String) (rt : Nat)
    (e : JsError) (bs : Bool) (t : List Event)
    (h : acceptBody env url rt = (Except.error e, bs, t)) :
    (acceptEmailForwardingRequest env url rt).1.success = false := by
  unfold acceptEmailForwardingRequest
  rw [h]
  cases e <;> rfl

/-- C2 witness: applied at a concrete run whose try block throws (the
navigation failure driver). -/
theorem C2_witness :
    (acceptEmailForwardingRequest navFailEnv urlOK 5).1.success = false :=
  C2_never_raises navFailEnv urlOK 5 (JsError.other "net::ERR_TIMED_OUT") true
    ((launchBrowser navFailEnv).2 ++ (setupPage navFailEnv).2 ++
      (navLoop navFailEnv [1, 2, 3]).2) rfl

theorem tryFallback_first_success (env : Env) (pre post : List LaunchConfig)
    (c : LaunchConfig)
    (hfail : ∀ c2 ∈ pre, ∃ m, env.launch c2 = Except.error m)
    (hok : env.launch c = Except.ok ()) :
    tryFallbackConfigs env (pre ++ c :: post) =
      (Except.ok (), (pre ++ [c]).map Event.launch) := by
  induction pre with
  | nil => simp [tryFallbackConfigs, hok]
  | cons p pre2 ih =>
    obtain ⟨m, hm⟩ := hfail p (by simp)
    have ih2 := ih fun c2 hc2 => hfail c2 (by simp [hc2])
    simp only [List.cons_append]
    unfold tryFallbackConfigs
    rw [hm]
    simp [ih2]

/-- C4: in the attempt sequence (primary configuration, then the common
install paths under both headless variants, then auto-detection under
both variants), if every configuration before position k fails and the
configuration at position k succeeds, `launchBrowser` succeeds and its
trace is exactly the first k+1 launch attempts: no earlier failure
aborts the chain and no attempt after the first success is made. -/
theorem C4_launch_fallback_chain (env : Env) (pre post : List LaunchConfig)
    (c : LaunchConfig)
    (hsplit : allConfigs env = pre ++ c :: post)
    (hfail : ∀ c2 ∈ pre, ∃ m, env.launch c2 = Except.error m)
    (hok : env.launch c = Except.ok ()) :
    launchBrowser env = (Except.ok (), (pre ++ [c]).map Event.launch) := by
  cases pre with
  | nil =>
    simp only [List.nil_append] at hsplit
    have hc : c = primaryConfig env.cfgPath := by
      have := congrArg List.head? hsplit
      simpa [allConfigs] using this.symm
    subst hc
    simp [launchBrowser, hok]
  | cons p pre2 =>
    have hp : p = primaryConfig env.cfgPath := by
      have := congrArg List.head? hsplit
      simpa [allConfigs] using this.symm
    subst hp
    have htail : fallbackConfigs = pre2 ++ c :: post := by
      have := congrArg List.tail hsplit
      simpa [allConfigs] using this
    obtain ⟨m, hm⟩ := hfail (primaryConfig env.cfgPath) (by simp)
    unfold launchBrowser
    rw [hm, htail,
      tryFallback_first_success env pre2 post c
        (fun c2 hc2 => hfail c2 (by simp [hc2])) hok]
    simp

/-- C4 witness: a driver whose primary (headless 'new') launch fails and
whose first fallback configuration succeeds: the chain stops right
there. -/
theorem C4_witness :
    launchBrowser launchFallbackEnv =
      (Except.ok (), [Event.launch (primaryConfig none),
        Event.launch ⟨HeadlessMode.hTrue, some "/usr/bin/chromium"⟩]) :=
  C4_launch_fallback_chain launchFallbackEnv [primaryConfig none]
    (fallbackConfigs.drop 1) ⟨HeadlessMode.hTrue, some "/usr/bin/chromium"⟩
    (by simp [allConfigs, fallbackConfigs, pathConfigs, commonPaths, autoConfigs,
      primaryConfig, launchFallbackEnv, baseEnv])
    (by
      intro c2 hc2
      simp only [List.mem_singleton] at hc2
      subst hc2
      exact ⟨"no exec", rfl⟩)
    rfl

/-- C1 counterexample: a run that reaches the post-click verification
and fails it closes the browser twice - once in the try block and once
again in the catch block - so close is not invoked exactly once on the
confirmation-failure terminal path. -/
theorem C1_counterexample :
    (acceptEmailForwardingRequest baseEnv urlOK 5).1.message =
      "Confirmation failed - page did not update as expected" ∧
    closeCount (acceptEmailForwardingRequest baseEnv urlOK 5).2 = 2 :=
  ⟨rfl, rfl⟩

/-- C1 (amended): once a browser is launched, its close operation is
invoked at least once and at most twice before the result is returned;
it is invoked exactly once on every successful run, but a run that fails
after the try block has already closed the browser (the
confirmation-failure path, or a failed close on a would-be success path,
whose failure also turns the result into a failure) closes a second time
in the catch block. -/
theorem C1_close_bounds (env : Env) (url : String) (rt : Nat)
    (hv : validateForwardingUrl url = true)
    (hl : (launchBrowser env).1 = Except.ok ()) :
    1 ≤ closeCount (acceptEmailForwardingRequest env url rt).2 ∧
    closeCount (acceptEmailForwardingRequest env url rt).2 ≤ 2 ∧
    ((acceptEmailForwardingRequest env url rt).1.success = true →
      closeCount (acceptEmailForwardingRequest env url rt).2 = 1) := by
  rcases acceptBody_spec env url rt with ⟨t, hb, hc, hk, hchk⟩ |
      ⟨t, hb, hc, hchk⟩ | ⟨e, bs, t, hb, hcls, hc, hb0, hbs⟩
  · unfold acceptEmailForwardingRequest
    rw [hb]
    simp [hc]
  · unfold acceptEmailForwardingRequest
    rw [hb]
    simp [hc]
  · have hbs2 : bs = true := hbs hv hl
    subst hbs2
    unfold acceptEmailForwardingRequest
    rw [hb]
    cases e <;>
      simp [closeCount_append, closeCount_close1, alreadyConfirmedResult,
        confirmedResult] <;> omega

/-- C1 witness: the close bounds at a concrete launched run. -/
theorem C1_witness :
    1 ≤ closeCount (acceptEmailForwardingRequest baseEnv urlOK 5).2 ∧
    closeCount (acceptEmailForwardingRequest baseEnv urlOK 5).2 ≤ 2 ∧
    ((acceptEmailForwardingRequest baseEnv urlOK 5).1.success = true →
      closeCount (acceptEmailForwardingRequest baseEnv urlOK 5).2 = 1) :=
  C1_close_bounds baseEnv urlOK 5 rfl rfl

/-- C5 counterexample: when all three navigation attempts fail, the
failure result does not carry the NAVIGATION_FAILED message; the raw
navigation error is rethrown on attempt 3 and surfaces as the generic
internal-error result (the NAVIGATION_FAILED branch of the source is
unreachable). -/
theorem C5_counterexample :
    navFailEnv.goto 1 = Except.error "net::ERR_TIMED_OUT" ∧
    navFailEnv.goto 2 = Except.error "net::ERR_TIMED_OUT" ∧
    navFailEnv.goto 3 = Except.error "net::ERR_TIMED_OUT" ∧
    (acceptEmailForwardingRequest navFailEnv urlOK 5).1 =
      ⟨false, "Internal error during email forwarding process", none, some urlOK, 5, none⟩ ∧
    "Internal error during email forwarding process" ≠
      "Failed to navigate to confirmation page after multiple attempts" :=
  ⟨rfl, rfl, rfl, rfl, by decide⟩

/-- C5 (amended): if all 3 navigation attempts fail, the run terminates
as a failure whose message is the generic "Internal error during email
forwarding process" (the raw driver error of attempt 3 is rethrown
unclassified; the NAVIGATION_FAILED classification is never surfaced),
and the browser is closed exactly once before returning; a failure on
attempt 1 followed by a success on attempt 2 does not produce a
navigation error. -/
theorem C5_nav_failure (env : Env) (url : String) (rt : Nat)
    (hv : validateForwardingUrl url = true)
    (hl : (launchBrowser env).1 = Except.ok ())
    (hs : (setupPage env).1 = Except.ok ())
    (h1 : ∃ m, env.goto 1 = Except.error m)
    (h2 : ∃ m, env.goto 2 = Except.error m)
    (h3 : ∃ m, env.goto 3 = Except.error m) :
    (acceptEmailForwardingRequest env url rt).1.success = false ∧
    (acceptEmailForwardingRequest env url rt).1.message =
      "Internal error during email forwarding process" ∧
    closeCount (acceptEmailForwardingRequest env url rt).2 = 1 ∧
    (∀ env2 : Env, (∃ m, env2.goto 1 = Except.error m) →
      env2.goto 2 = Except.ok () → (navLoop env2 [1, 2, 3]).1 = Except.ok true) := by
  obtain ⟨m1, hm1⟩ := h1
  obtain ⟨m2, hm2⟩ := h2
  obtain ⟨m3, hm3⟩ := h3
  have hn : (navLoop env [1, 2, 3]).1 = Except.error (JsError.other m3) := by
    simp [navLoop, hm1, hm2, hm3]
  have hbody : acceptBody env url rt = (Except.error (JsError.other m3), true,
      (launchBrowser env).2 ++ (setupPage env).2 ++ (navLoop env [1, 2, 3]).2) := by
    simp [acceptBody, hv, hl, hs, hn]
  refine ⟨?_, ?_, ?_, ?_⟩
  · exact C2_never_raises env url rt _ _ _ hbody
  · unfold acceptEmailForwardingRequest
    rw [hbody]
  · unfold acceptEmailForwardingRequest
    rw [hbody]
    simp [closeCount_append, closeCount_close1, closeCount_launch,
      closeCount_setup, closeCount_nav]
  · intro env2 hg1 hg2
    obtain ⟨m, hm⟩ := hg1
    simp [navLoop, hm, hg2]

/-- C5 witness: the amended statement at the concrete all-attempts-fail
driver. -/
theorem C5_witness :
    (acceptEmailForwardingRequest navFailEnv urlOK 5).1.success = false ∧
    (acceptEmailForwardingRequest navFailEnv urlOK 5).1.message =
      "Internal error during email forwarding process" ∧
    closeCount (acceptEmailForwardingRequest navFailEnv urlOK 5).2 = 1 ∧
    (∀ env2 : Env, (∃ m, env2.goto 1 = Except.error m) →
      env2.goto 2 = Except.ok () → (navLoop env2 [1, 2, 3]).1 = Except.ok true) :=
  C5_nav_failure navFailEnv urlOK 5 rfl rfl rfl
    ⟨"net::ERR_TIMED_OUT", rfl⟩ ⟨"net::ERR_TIMED_OUT", rfl⟩ ⟨"net::ERR_TIMED_OUT", rfl⟩

/-- C6 counterexample: with the page text containing a confirmation
phrase before any click, a failing close turns the run into a failure
result (success = false) with a second close in the catch block - the
claimed unconditional success:true / close-exactly-once does not hold. -/
theorem C6_counterexample :
    (confirmationTexts.any fun t =>
      strIncludes (strToLower "You may now forward mail to a@b.c") t) = true ∧
    closeCrashEnv.check 0 = okCheck "You may now forward mail to a@b.c" ∧
    (acceptEmailForwardingRequest closeCrashEnv urlOK 5).1.success = false ∧
    closeCount (acceptEmailForwardingRequest closeCrashEnv urlOK 5).2 = 2 :=
  ⟨rfl, rfl, rfl, rfl⟩

/-- C6 (amended): if the pre-click page text contains a confirmation
phrase and the close call succeeds, the run returns success:true with
alreadyConfirmed:true, no control is clicked, and close is invoked
exactly once; when that close fails, it is invoked a second time by the
catch block and the result becomes a failure. -/
theorem C6_already_confirmed (env : Env) (url : String) (rt : Nat)
    (hv : validateForwardingUrl url = true)
    (hl : (launchBrowser env).1 = Except.ok ())
    (hs : (setupPage env).1 = Except.ok ())
    (hnav : (navLoop env [1, 2, 3]).1 = Except.ok true)
    (raw : String) (hw : env.check 0 = ⟨Except.ok (), Except.ok raw⟩)
    (hphrase : (confirmationTexts.any fun t => strIncludes (strToLower raw) t) = true)
    (hclose : env.closeRes 0 = Except.ok ()) :
    (acceptEmailForwardingRequest env url rt).1 = alreadyConfirmedResult url rt ∧
    clickCount (acceptEmailForwardingRequest env url rt).2 = 0 ∧
    closeCount (acceptEmailForwardingRequest env url rt).2 = 1 := by
  have hchk : (checkIfAlreadyConfirmed (env.check 0)).1 = true := by
    simp [checkIfAlreadyConfirmed, hw, hphrase]
  have hAN : afterNav env url rt = (Except.ok (alreadyConfirmedResult url rt),
      (checkIfAlreadyConfirmed (env.check 0)).2 ++ [Event.close]) := by
    simp [afterNav, hchk, hclose]
  have hbody : acceptBody env url rt = (Except.ok (alreadyConfirmedResult url rt), true,
      (launchBrowser env).2 ++ (setupPage env).2 ++ (navLoop env [1, 2, 3]).2 ++
        ((checkIfAlreadyConfirmed (env.check 0)).2 ++ [Event.close])) := by
    simp [acceptBody, hv, hl, hs, hnav, hAN]
  unfold acceptEmailForwardingRequest
  rw [hbody]
  refine ⟨rfl, ?_, ?_⟩
  · simp [clickCount_append, clickCount_launch, clickCount_setup, clickCount_nav,
      clickCount_check, clickCount_close1]
  · simp [closeCount_append, closeCount_launch, closeCount_setup, closeCount_nav,
      closeCount_check, closeCount_close1]

/-- C6 witness: the amended statement at the concrete already-confirmed
driver whose close succeeds. -/
theorem C6_witness :
    (acceptEmailForwardingRequest alreadyOkEnv urlOK 5).1 =
      alreadyConfirmedResult urlOK 5 ∧
    clickCount (acceptEmailForwardingRequest alreadyOkEnv urlOK 5).2 = 0 ∧
    closeCount (acceptEmailForwardingRequest alreadyOkEnv urlOK 5).2 = 1 :=
  C6_already_confirmed alreadyOkEnv urlOK 5 rfl rfl rfl rfl
    "You may now forward mail to a@b.c" rfl rfl rfl

theorem accept_err_efe (env : Env) (url : String) (rt : Nat) (ef : EFError)
    (bs : Bool) (t : List Event)
    (hb : acceptBody env url rt = (Except.error (JsError.efe ef), bs, t)) :
    (acceptEmailForwardingRequest env url rt).1 =
      ⟨false, ef.message, ef.email, ef.url, rt, none⟩ := by
  unfold acceptEmailForwardingRequest
  rw [hb]

theorem accept_err_other (env : Env) (url : String) (rt : Nat) (m : String)
    (bs : Bool) (t : List Event)
    (hb : acceptBody env url rt = (Except.error (JsError.other m), bs, t)) :
    (acceptEmailForwardingRequest env url rt).1 =
      ⟨false, "Internal error during email forwarding process", none, some url, rt, none⟩ := by
  unfold acceptEmailForwardingRequest
  rw [hb]

/-- C8 counterexample: the button-not-found failure result has no url
field at all (the BUTTON_NOT_FOUND error is constructed without a url),
so not every failing result carries the request's URL. -/
theorem C8_counterexample :
    (acceptEmailForwardingRequest noButtonEnv urlOK 5).1.success = false ∧
    (acceptEmailForwardingRequest noButtonEnv urlOK 5).1.message =
      "No confirmation button found" ∧
    (acceptEmailForwardingRequest noButtonEnv urlOK 5).1.url = none :=
  ⟨rfl, rfl, rfl⟩

/-- C8 (amended): every failing result has success:false with a message
and responseTime; its url field carries the request's URL for every
failure kind except BrowserLaunchFailed and ButtonNotFound, whose
results carry no url (their errors are constructed without one). -/
theorem C8_failure_url (env : Env) (url : String) (rt : Nat)
    (h : (acceptEmailForwardingRequest env url rt).1.success = false) :
    ((acceptEmailForwardingRequest env url rt).1.url = some url ∧
      (acceptEmailForwardingRequest env url rt).1.message ≠
        "Failed to launch browser after trying all fallback options" ∧
      (acceptEmailForwardingRequest env url rt).1.message ≠
        "No confirmation button found")
    ∨ ((acceptEmailForwardingRequest env url rt).1.url = none ∧
      ((acceptEmailForwardingRequest env url rt).1.message =
          "Failed to launch browser after trying all fallback options" ∨
        (acceptEmailForwardingRequest env url rt).1.message =
          "No confirmation button found")) := by
  rcases acceptBody_spec env url rt with ⟨t, hb, _, _, _⟩ | ⟨t, hb, _, _⟩ |
      ⟨e, bs, t, hb, hcls, _, _, _⟩
  · rw [show (acceptEmailForwardingRequest env url rt) =
        (alreadyConfirmedResult url rt, t) by
      unfold acceptEmailForwardingRequest; rw [hb]] at h
    exact absurd h (by simp [alreadyConfirmedResult])
  · rw [show (acceptEmailForwardingRequest env url rt) = (confirmedResult url rt, t) by
      unfold acceptEmailForwardingRequest; rw [hb]] at h
    exact absurd h (by simp [confirmedResult])
  · rcases hcls with ⟨m, rfl⟩ | rfl | rfl | rfl | rfl | rfl
    · rw [accept_err_other env url rt m bs t hb]
      exact Or.inl ⟨rfl, by simp, by simp⟩
    · rw [accept_err_efe env url rt _ bs t hb]
      exact Or.inl ⟨rfl, by simp [invalidUrlError], by simp [invalidUrlError]⟩
    · rw [accept_err_efe env url rt _ bs t hb]
      exact Or.inr ⟨rfl, Or.inl rfl⟩
    · rw [accept_err_efe env url rt _ bs t hb]
      exact Or.inl ⟨rfl, by simp [navigationFailedError], by simp [navigationFailedError]⟩
    · rw [accept_err_efe env url rt _ bs t hb]
      exact Or.inr ⟨rfl, Or.inr rfl⟩
    · rw [accept_err_efe env url rt _ bs t hb]
      exact Or.inl ⟨rfl, by simp [confirmationFailedError], by simp [confirmationFailedError]⟩

/-- C8 witness: the amended statement at the concrete button-not-found
run. -/
theorem C8_witness :
    ((acceptEmailForwardingRequest noButtonEnv urlOK 5).1.url = some urlOK ∧
      (acceptEmailForwardingRequest noButtonEnv urlOK 5).1.message ≠
        "Failed to launch browser after trying all fallback options" ∧
      (acceptEmailForwardingRequest noButtonEnv urlOK 5).1.message ≠
        "No confirmation button found")
    ∨ ((acceptEmailForwardingRequest noButtonEnv urlOK 5).1.url = none ∧
      ((acceptEmailForwardingRequest noButtonEnv urlOK 5).1.message =
          "Failed to launch browser after trying all fallback options" ∨
        (acceptEmailForwardingRequest noButtonEnv urlOK 5).1.message =
          "No confirmation button found")) :=
  C8_failure_url noButtonEnv urlOK 5 rfl

/-- C9: the result's alreadyConfirmed field is present exactly when
success is true; it is `some true` exactly on the pre-click
short-circuit success (pre-click check positive) and `some false`
exactly on the post-click verification success (pre-click check
negative); every failure result omits it. -/
theorem C9_alreadyConfirmed_iff (env : Env) (url : String) (rt : Nat) :
    ((acceptEmailForwardingRequest env url rt).1.alreadyConfirmed.isSome =
      (acceptEmailForwardingRequest env url rt).1.success) ∧
    ((acceptEmailForwardingRequest env url rt).1.alreadyConfirmed = some true ↔
      ((acceptEmailForwardingRequest env url rt).1.success = true ∧
        (checkIfAlreadyConfirmed (env.check 0)).1 = true)) ∧
    ((acceptEmailForwardingRequest env url rt).1.alreadyConfirmed = some false ↔
      ((acceptEmailForwardingRequest env url rt).1.success = true ∧
        (checkIfAlreadyConfirmed (env.check 0)).1 = false)) := by
  rcases acceptBody_spec env url rt with ⟨t, hb, _, _, hchk⟩ | ⟨t, hb, _, hchk⟩ |
      ⟨e, bs, t, hb, _, _, _, _⟩
  · unfold acceptEmailForwardingRequest
    rw [hb]
    simp [alreadyConfirmedResult, hchk]
  · unfold acceptEmailForwardingRequest
    rw [hb]
    simp [confirmedResult, hchk]
  · unfold acceptEmailForwardingRequest
    rw [hb]
    cases e <;> simp

/-- C9 witness: the characterization at a concrete already-confirmed
run. -/
theorem C9_witness :
    ((acceptEmailForwardingRequest alreadyOkEnv urlOK 5).1.alreadyConfirmed.isSome =
      (acceptEmailForwardingRequest alreadyOkEnv urlOK 5).1.success) ∧
    ((acceptEmailForwardingRequest alreadyOkEnv urlOK 5).1.alreadyConfirmed = some true ↔
      ((acceptEmailForwardingRequest alreadyOkEnv urlOK 5).1.success = true ∧
        (checkIfAlreadyConfirmed (alreadyOkEnv.check 0)).1 = true)) ∧
    ((acceptEmailForwardingRequest alreadyOkEnv urlOK 5).1.alreadyConfirmed = some false ↔
      ((acceptEmailForwardingRequest alreadyOkEnv urlOK 5).1.success = true ∧
        (checkIfAlreadyConfirmed (alreadyOkEnv.check 0)).1 = false)) :=
  C9_alreadyConfirmed_iff alreadyOkEnv urlOK 5

theorem attemptSel_spec (page : List Elem) (s : Sel) (a : ClickAttempt)
    (h : attemptSel page s = some a) :
    a.sel = s ∧ (s ≠ Sel.buttonContainsConfirm → a.elem.visible = true) := by
  cases s <;> simp only [attemptSel] at h <;>
    [skip; skip; skip; skip;
      (split at h
       · injection h with h2
         subst h2
         exact ⟨rfl, fun hs => absurd rfl hs⟩
       · exact absurd h (by simp));
      skip; skip] <;>
    (split at h
     · split at h
       · rename_i ie hfind hvis
         injection h with h2
         subst h2
         exact ⟨rfl, fun _ => hvis⟩
       · exact absurd h (by simp)
     · exact absurd h (by simp))

theorem trySelectors_at_most_one (page : List Elem) (sels : List Sel) :
    ((trySelectors page sels).2.countP fun a => a.ok) ≤ 1 := by
  induction sels with
  | nil => simp [trySelectors]
  | cons s rest ih =>
    unfold trySelectors
    cases hA : attemptSel page s with
    | none => exact ih
    | some a =>
      by_cases hok : a.ok = true
      · simp [hok, List.countP_cons]
      · simp only [Bool.not_eq_true] at hok
        simp only [hok, Bool.false_eq_true, if_false]
        rw [List.countP_cons]
        simp [hok, ih]

theorem trySelectors_success_is_last (page : List Elem) (sels : List Sel)
    (a : ClickAttempt) (ha : a ∈ (trySelectors page sels).2) (hok : a.ok = true) :
    (trySelectors page sels).2.getLast? = some a := by
  induction sels with
  | nil => simp [trySelectors] at ha
  | cons s rest ih =>
    revert ha
    unfold trySelectors
    cases hA : attemptSel page s with
    | none => exact ih
    | some a0 =>
      by_cases h0 : a0.ok = true
      · simp only [h0, if_true]
        intro ha
        simp only [List.mem_singleton] at ha
        subst ha
        rfl
      · simp only [Bool.not_eq_true] at h0
        simp only [h0, Bool.false_eq_true, if_false]
        intro ha
        rcases List.mem_cons.1 ha with rfl | ha2
        · rw [hok] at h0
          exact absurd h0 (by simp)
        · have hlast := ih ha2
          cases hrec : (trySelectors page rest).2 with
          | nil => rw [hrec] at ha2; simp at ha2
          | cons b l =>
            rw [hrec] at hlast
            rw [List.getLast?_cons_cons]
            exact hlast

theorem trySelectors_css_visible (page : List Elem) (sels : List Sel)
    (a : ClickAttempt) (ha : a ∈ (trySelectors page sels).2)
    (hs : a.sel ≠ Sel.buttonContainsConfirm) : a.elem.visible = true := by
  induction sels with
  | nil => simp [trySelectors] at ha
  | cons s rest ih =>
    revert ha
    unfold trySelectors
    cases hA : attemptSel page s with
    | none => exact ih
    | some a0 =>
      by_cases h0 : a0.ok = true
      · simp only [h0, if_true]
        intro ha
        simp only [List.mem_singleton] at ha
        subst ha
        obtain ⟨hsel, hvis⟩ := attemptSel_spec page s a hA
        exact hvis (hsel ▸ hs)
      · simp only [Bool.not_eq_true] at h0
        simp only [h0, Bool.false_eq_true, if_false]
        intro ha
        rcases List.mem_cons.1 ha with rfl | ha2
        · obtain ⟨hsel, hvis⟩ := attemptSel_spec page s a hA
          exact hvis (hsel ▸ hs)
        · exact ih ha2

/-- C7 counterexample: an invisible button whose text content is
"Confirm" is clicked by the text-content scan - the activated control
is not visible at the moment of the click, refuting the visibility part
of the claim. -/
theorem C7_counterexample :
    hiddenConfirmButton.visible = false ∧
    clickConfirmationButton [hiddenConfirmButton] =
      (Except.ok (), [⟨Sel.buttonContainsConfirm, 0, hiddenConfirmButton, true⟩]) :=
  ⟨rfl, rfl⟩

/-- C7 (amended): per invocation at most one control is successfully
clicked and a successful click is always the last attempt (all later
strategies are skipped); a control activated by one of the CSS selector
strategies passed the visibility check at the moment of the click, but
the text-content scan clicks its first matching button-like element
without any visibility check. -/
theorem C7_click_discipline (page : List Elem) :
    (((clickConfirmationButton page).2.countP fun a => a.ok) ≤ 1) ∧
    (∀ a ∈ (clickConfirmationButton page).2, a.ok = true →
      (clickConfirmationButton page).2.getLast? = some a) ∧
    (∀ a ∈ (clickConfirmationButton page).2, a.sel ≠ Sel.buttonContainsConfirm →
      a.elem.visible = true) := by
  have h2 : (clickConfirmationButton page).2 = (trySelectors page selectorList).2 := by
    unfold clickConfirmationButton
    by_cases hc : (trySelectors page selectorList).1 = true <;> simp [hc]
  rw [h2]
  exact ⟨trySelectors_at_most_one page selectorList,
    fun a ha hok => trySelectors_success_is_last page selectorList a ha hok,
    fun a ha hs => trySelectors_css_visible page selectorList a ha hs⟩

/-- C7 witness: the discipline at a concrete page with one visible
confirm control. -/
theorem C7_witness :
    (((clickConfirmationButton [confirmButtonElem]).2.countP fun a => a.ok) ≤ 1) ∧
    (∀ a ∈ (clickConfirmationButton [confirmButtonElem]).2,
      a.sel ≠ Sel.buttonContainsConfirm → a.elem.visible = true) :=
  ⟨(C7_click_discipline [confirmButtonElem]).1,
    (C7_click_discipline [confirmButtonElem]).2.2⟩

end EmailForwarding
